import Mathlib

/-!
Verification of the `ipfsStore` ingestion pipeline.

Shallow embedding of `src/api/src/routes/ipfsStore.ts` (the `ipfsStore`
function) from the poc-ipfs repository.

Modelling decisions:

* External collaborators (the IOTA node, the IPFS HTTP client, the DynamoDB
  backed `StateService` / `BundleCacheService` / `TransactionCacheService`,
  the Node `crypto` / `sha3` hash primitives, base64 decoding of the request
  body, seed generation and address derivation) are represented by an `Env`
  record of oracle values and functions.  The pipeline itself — ordering of
  checks, error handling, state mutation, cache population, the returned
  response — is translated line by line from the source.
* The durable backing store (the allocation state row and the two cache
  tables) is an explicit `Store` value threaded through the run.
* Every external call appends an `Event` to an ordered trace, so temporal
  claims ("before any network call", "persisted before signing") become
  statements about the trace.
* Thrown JavaScript errors are modelled as `Except String`; the strings are
  the `err.toString()` values produced by the `catch` block at the end of
  `ipfsStore`.  Configuration-derived behaviour (node provider, IPFS provider
  URL parse, tokens) is folded into `Env`.
-/

/-- One ingestion request, mirroring `IIPFSStoreRequest`
(`name`, `description`, `size`, `modified`, `algorithm`, `hash`, `data`).
`data` is the base64 payload exactly as received. -/
structure IPFSStoreRequest where
  name : String
  description : String
  size : Nat
  modified : String
  algorithm : String
  hash : String
  data : String
deriving DecidableEq

/-- The response of `ipfsStore`, mirroring `IIPFSStoreResponse`:
`success`, `message`, and the optional `transactionHash` / `ipfs` fields of
the success branch. -/
structure IPFSStoreResponse where
  success : Bool
  message : String
  transactionHash : Option String
  ipfs : Option String
deriving DecidableEq

/-- The allocation state row persisted by `StateService` under id
`"default"`: `{ seed, id, addressIndex }` (lines 101-112 of the source).
`addressIndex` is what the spec calls `AllocationState.nextIndex`. -/
structure StoredState where
  seed : String
  id : String
  addressIndex : Nat
deriving DecidableEq

/-- One element of the array returned by `iota.sendTrytes`: a transaction
with its `hash`, its `bundle` id, and its trytes as produced by
`asTransactionTrytes` (which is a pure per-transaction conversion, carried
here as a field). -/
structure Tx where
  hash : String
  bundle : String
  trytes : String
deriving DecidableEq

/-- The durable backing store visible to one run: the `StateService` row
(`allocState`), the bundle cache (group id together with the ordered member
transaction hashes) and the transaction cache (transaction hash with its
trytes). -/
structure Store where
  allocState : Option StoredState
  bundleGroups : List (String × List String)
  txRecords : List (String × String)
deriving DecidableEq

/-- Observable external calls of one run, in program order.
`sizeCheck` / `emptyCheck` are observation points marking that the purely
local buffer-length checks of lines 39 and 46 were executed; every other
constructor is a call that leaves the process (IOTA node probe, IPFS add,
DynamoDB reads and writes, transfer preparation, trytes submission). -/
inductive Event where
  | nodeProbe
  | sizeCheck
  | emptyCheck
  | ipfsAdd
  | stateGet
  | stateSet
  | prepareTransfers
  | sendTrytes
  | bundleCacheSet
  | txCacheSet
deriving DecidableEq

/-- Responses of the external world for one run.  Deterministic pure
platform primitives (base64 decoding, the two hash digests, address
derivation) are function fields; fallible awaited calls are `Except` values
whose `error` strings stand for the `toString()` rendering of the rejected
error. -/
structure Env where
  /-- Does `IotaHelper.isNodeAvailable(config.node.provider, true)` succeed? -/
  nodeAvailable : Bool
  /-- `Buffer.from(request.data, "base64")` as a byte list. -/
  base64Decode : String → List Nat
  /-- `crypto.createHash("sha256")` hex digest of a byte buffer. -/
  sha256Hex : List Nat → String
  /-- `new SHA3(256)` hex digest of a byte buffer. -/
  sha3Hex : List Nat → String
  /-- Does the regex `(https?):\/\/(.*):(\d*)(.*)` match `config.ipfs.provider`?
  (When it does, the match array always has length 5.) -/
  ipfsPartsOk : Bool
  /-- `ipfs.add(buffer)`: the stream of `file.path` values, or a rejection. -/
  ipfsAdd : Except String (List String)
  /-- `TrytesHelper.generateHash()` — the freshly generated seed. -/
  generateHash : String
  /-- `generateAddress(seed, index, 2)`. -/
  generateAddress : String → Nat → String
  /-- Outcome of `stateService.get("default")`; the value itself comes from
  `Store.allocState`. -/
  stateGet : Except String Unit
  /-- Outcome of `stateService.set(currentState)`. -/
  stateSet : Except String Unit
  /-- Outcome of `iota.prepareTransfers(...)` — the prepared trytes. -/
  prepareTransfers : Except String String
  /-- Outcome of `iota.sendTrytes(trytes, depth, mwm)` — the transactions of
  the attached bundle. -/
  sendTrytes : Except String (List Tx)
  /-- Outcome of `bundleCacheService.set(...)`. -/
  bundleCacheSet : Except String Unit
  /-- Outcome of the `i`-th `transactionCacheService.set(...)` call. -/
  txCacheSet : Nat → Except String Unit

/-- `const maxSize = 0.5 * 1048576` (line 35). -/
def maxSize : Nat := 524288

/-- Message of the size-limit error of lines 40-44; `(maxSize / 1048576).toFixed(1)`
evaluates to `"0.5"`. -/
def fileTooLargeMsg : String :=
  "Error: The file is too large for this demonstration, it should be less than 0.5 Mb."

/-- Message of the empty-file error of line 47. -/
def emptyFileMsg : String :=
  "Error: The file must be greater than 0 bytes in length."

/-- Message of the hash-mismatch error of lines 63-64.  When no digest was
computed (`hex` is `undefined` in JavaScript) the template literal renders
it as the string `"undefined"`. -/
def hashMismatchMsg (declared : String) (hex : Option String) : String :=
  "Error: The hash for the file is incorrect \x27" ++ declared ++
    "\x27 was sent but it has been calculated as \x27" ++ hex.getD "undefined" ++ "\x27"

/-- Modelled from the spec: `IotaHelper.isNodeAvailable` (source not under
`src/`) probes the configured node and, with `throwOnFail = true`, throws a
`LedgerUnavailable`-style error when the node cannot be reached. -/
def nodeUnavailableMsg : String :=
  "Error: The node is currently unavailable, please try again later."

/-- When the IPFS provider regex does not match, `parts` is `null` and line 69
reads `parts.length`, raising a `TypeError`. -/
def ipfsPartsMsg : String :=
  "TypeError: Cannot read property \x27length\x27 of null"

/-- When `sendTrytes` resolves with an empty array, line 149 reads
`bundles[0].bundle` on `undefined`, raising a `TypeError`. -/
def bundleUndefinedMsg : String :=
  "TypeError: Cannot read property \x27bundle\x27 of undefined"

/-- Modelled from the spec: `ValidationHelper.string` (source not under
`src/`) rejects a bad or missing input field with a `ValidationError` and
"never causes a side effect"; a bad string field is modelled as the empty
string.  `ValidationHelper.number(request.size, "size")` always succeeds on
the typed `size : Nat` field.  This flattens the seven calls of lines 25-31. -/
def validate (req : IPFSStoreRequest) : Except String Unit :=
  if req.name = "" then .error "Error: The parameter name is missing or invalid."
  else if req.description = "" then .error "Error: The parameter description is missing or invalid."
  else if req.modified = "" then .error "Error: The parameter modified is missing or invalid."
  else if req.algorithm = "" then .error "Error: The parameter algorithm is missing or invalid."
  else if req.hash = "" then .error "Error: The parameter hash is missing or invalid."
  else if req.data = "" then .error "Error: The parameter data is missing or invalid."
  else .ok ()

/-- Lines 50-60: `hex` is the sha256 digest for algorithm `"sha256"`, the
SHA3-256 digest for `"sha3"`, and stays `undefined` (`none`) for any other
algorithm. -/
def hexOf (env : Env) (algorithm : String) (buffer : List Nat) : Option String :=
  if algorithm = "sha256" then some (env.sha256Hex buffer)
  else if algorithm = "sha3" then some (env.sha3Hex buffer)
  else none

/-- Lines 101-110: the state written back by the allocation step.  If no
state row exists, a fresh seed is generated and the index starts at 0;
otherwise `addressIndex` is incremented in place. -/
def allocNext (env : Env) (cur : Option StoredState) : StoredState :=
  match cur with
  | none => { seed := env.generateHash, id := "default", addressIndex := 0 }
  | some s => { s with addressIndex := s.addressIndex + 1 }

/-- Lines 155-157: `for (i...) await transactionCacheService.set({id: bundles[i].hash,
trytes: attachedTrytes[i]})`.  Returns the updated store, the emitted cache
events and the outcome; stops at the first failing `set`. -/
def txLoop (env : Env) (txs : List Tx) (i : Nat) (store : Store) :
    Store × List Event × Except String Unit :=
  match txs with
  | [] => (store, [], .ok ())
  | t :: rest =>
    match env.txCacheSet i with
    | .error e => (store, [.txCacheSet], .error e)
    | .ok _ =>
      let store1 := { store with txRecords := store.txRecords ++ [(t.hash, t.trytes)] }
      let r := txLoop env rest (i + 1) store1
      (r.1, .txCacheSet :: r.2.1, r.2.2)

/-- The body of the `try` block of `ipfsStore` (lines 25-164), translated
statement by statement.  The result is the updated backing store, the
ordered trace of external calls, and either the success payload
`(txHashes[0], ipfsHash)` or the `toString()` of the thrown error. -/
def ipfsStoreRun (env : Env) (req : IPFSStoreRequest) (store : Store) :
    Store × List Event × Except String (String × Option String) :=
  match validate req with
  | .error e => (store, [], .error e)
  | .ok _ =>
  if env.nodeAvailable = false then
    (store, [.nodeProbe], .error nodeUnavailableMsg)
  else
  let buffer := env.base64Decode req.data
  if maxSize ≤ buffer.length then
    (store, [.nodeProbe, .sizeCheck], .error fileTooLargeMsg)
  else if buffer.length = 0 then
    (store, [.nodeProbe, .sizeCheck, .emptyCheck], .error emptyFileMsg)
  else
  let hex := hexOf env req.algorithm buffer
  if hex ≠ some req.hash then
    (store, [.nodeProbe, .sizeCheck, .emptyCheck], .error (hashMismatchMsg req.hash hex))
  else if env.ipfsPartsOk = false then
    (store, [.nodeProbe, .sizeCheck, .emptyCheck], .error ipfsPartsMsg)
  else
  match env.ipfsAdd with
  | .error e => (store, [.nodeProbe, .sizeCheck, .emptyCheck, .ipfsAdd], .error e)
  | .ok paths =>
  let ipfsHash := paths.getLast?
  match env.stateGet with
  | .error e =>
    (store, [.nodeProbe, .sizeCheck, .emptyCheck, .ipfsAdd, .stateGet], .error e)
  | .ok _ =>
  let newState := allocNext env store.allocState
  match env.stateSet with
  | .error e =>
    (store, [.nodeProbe, .sizeCheck, .emptyCheck, .ipfsAdd, .stateGet, .stateSet], .error e)
  | .ok _ =>
  let store1 := { store with allocState := some newState }
  let _addr := env.generateAddress newState.seed newState.addressIndex
  match env.prepareTransfers with
  | .error e =>
    (store1,
     [.nodeProbe, .sizeCheck, .emptyCheck, .ipfsAdd, .stateGet, .stateSet, .prepareTransfers],
     .error e)
  | .ok _trytes =>
  match env.sendTrytes with
  | .error e =>
    (store1,
     [.nodeProbe, .sizeCheck, .emptyCheck, .ipfsAdd, .stateGet, .stateSet, .prepareTransfers,
      .sendTrytes],
     .error e)
  | .ok bundles =>
  match bundles with
  | [] =>
    (store1,
     [.nodeProbe, .sizeCheck, .emptyCheck, .ipfsAdd, .stateGet, .stateSet, .prepareTransfers,
      .sendTrytes],
     .error bundleUndefinedMsg)
  | b0 :: rest =>
  let txHashes := (b0 :: rest).map (fun t => t.hash)
  match env.bundleCacheSet with
  | .error e =>
    (store1,
     [.nodeProbe, .sizeCheck, .emptyCheck, .ipfsAdd, .stateGet, .stateSet, .prepareTransfers,
      .sendTrytes, .bundleCacheSet],
     .error e)
  | .ok _ =>
  let store2 := { store1 with bundleGroups := (b0.bundle, txHashes) :: store1.bundleGroups }
  match txLoop env (b0 :: rest) 0 store2 with
  | (s3, evs, .error e) =>
    (s3,
     [.nodeProbe, .sizeCheck, .emptyCheck, .ipfsAdd, .stateGet, .stateSet, .prepareTransfers,
      .sendTrytes, .bundleCacheSet] ++ evs,
     .error e)
  | (s3, evs, .ok _) =>
    (s3,
     [.nodeProbe, .sizeCheck, .emptyCheck, .ipfsAdd, .stateGet, .stateSet, .prepareTransfers,
      .sendTrytes, .bundleCacheSet] ++ evs,
     .ok (b0.hash, ipfsHash))

/-- A fully successful environment used as a base point for concrete runs:
the node is reachable, the buffer decodes to the five bytes of `"hello"`,
both digests are fixed strings, IPFS returns one path, the backing store
accepts every write and the ledger returns a two-transaction bundle. -/
def testEnv : Env where
  nodeAvailable := true
  base64Decode := fun _ => [104, 101, 108, 108, 111]
  sha256Hex := fun _ => "2cf2"
  sha3Hex := fun _ => "3a98"
  ipfsPartsOk := true
  ipfsAdd := .ok ["QmTestHash"]
  generateHash := "NEWSEED"
  generateAddress := fun s i => s ++ toString i
  stateGet := .ok ()
  stateSet := .ok ()
  prepareTransfers := .ok "TRYTES"
  sendTrytes := .ok [⟨"TX0", "BUNDLE0", "RAW0"⟩, ⟨"TX1", "BUNDLE0", "RAW1"⟩]
  bundleCacheSet := .ok ()
  txCacheSet := fun _ => .ok ()

/-- A well-formed request whose declared hash matches the sha256 digest
produced by `testEnv`. -/
def testReq : IPFSStoreRequest where
  name := "a.txt"
  description := "a file"
  size := 5
  modified := "2020-01-01"
  algorithm := "sha256"
  hash := "2cf2"
  data := "aGVsbG8="

/-- A backing store already holding an allocation state at index 5. -/
def testStore : Store where
  allocState := some ⟨"STOREDSEED", "default", 5⟩
  bundleGroups := []
  txRecords := []

/-- True for events that leave the process over the network: the node
availability probe, the IPFS add, the DynamoDB state and cache operations
and the transfer preparation / trytes submission.  The two buffer-length
observation points are local. -/
def isNetwork : Event → Bool
  | .sizeCheck => false
  | .emptyCheck => false
  | _ => true

/-- True for the two local buffer-length checks. -/
def isCheck : Event → Bool
  | .sizeCheck => true
  | .emptyCheck => true
  | _ => false

/-- Formalisation of "the size and empty checks are performed before any
network call": no check event occurs after a network event in the trace. -/
def noCheckAfterNetwork : List Event → Bool
  | [] => true
  | e :: r =>
    if isNetwork e then r.all (fun x => !(isCheck x))
    else noCheckAfterNetwork r

/-- Scanner for the amended ordering property: heavy events (everything
except the node probe and the two checks) occur only after both the size
check and the empty check have been executed.  The two flags record which
checks have been seen so far. -/
def heavyAfterChecks : Bool → Bool → List Event → Bool
  | _, _, [] => true
  | ss, se, e :: r =>
    match e with
    | .nodeProbe => heavyAfterChecks ss se r
    | .sizeCheck => heavyAfterChecks true se r
    | .emptyCheck => heavyAfterChecks ss true r
    | _ => ss && se && heavyAfterChecks ss se r

/-- Scanner for "the updated state is persisted before the address is used
to sign": every `prepareTransfers` / `sendTrytes` event is preceded by a
`stateSet` event.  The flag records whether `stateSet` has been seen. -/
def setBeforeSign : Bool → List Event → Bool
  | _, [] => true
  | seen, e :: r =>
    match e with
    | .stateSet => setBeforeSign true r
    | .prepareTransfers => seen && setBeforeSign seen r
    | .sendTrytes => seen && setBeforeSign seen r
    | _ => setBeforeSign seen r

/-!
Fine-grained model of the allocation step for the concurrency claims.

Lines 101-112 perform the allocation as two separate awaited backing-store
operations with a pure computation in between: `stateService.get("default")`,
then the in-memory fresh/increment step (`allocNext`), then
`stateService.set(currentState)` — an unconditional write that carries no
expected previous value and has no retry around it.  Two requests running
concurrently against the shared store interleave these two operations
freely.  `Phase` is the progress of one request through the allocation
step; `allocSched` executes a given interleaving of two requests.
-/

/-- Progress of one request through the allocation step: not yet read the
state, read it (holding the snapshot), or finished (holding the state it
wrote, whose `addressIndex` is the allocated index). -/
inductive Phase where
  | start
  | gotten (snapshot : Option StoredState)
  | done (allocated : StoredState)
deriving DecidableEq

/-- Shared backing store plus the local progress of the two requests. -/
structure ConcState where
  store : Option StoredState
  threadA : Phase
  threadB : Phase
deriving DecidableEq

/-- One step of one request: `start → gotten` performs `stateService.get`
(a snapshot of the shared store); `gotten → done` computes `allocNext` on
the snapshot and performs the unconditional `stateService.set`.  A finished
request does nothing. -/
def allocStep (env : Env) (store : Option StoredState) :
    Phase → Option StoredState × Phase
  | .start => (store, .gotten store)
  | .gotten snap =>
    let ns := allocNext env snap
    (some ns, .done ns)
  | .done s => (store, .done s)

/-- Run a schedule over two concurrent allocation requests; `true` steps
request A, `false` steps request B. -/
def allocSched (env : Env) : List Bool → ConcState → ConcState
  | [], cs => cs
  | b :: rest, cs =>
    if b then
      let r := allocStep env cs.store cs.threadA
      allocSched env rest { cs with store := r.1, threadA := r.2 }
    else
      let r := allocStep env cs.store cs.threadB
      allocSched env rest { cs with store := r.1, threadB := r.2 }

/-- `ipfsStore` with its `catch` block (lines 165-170): a thrown error is
converted into `{ success: false, message: err.toString() }`; the success
branch returns `{ success: true, message: "OK", transactionHash, ipfs }`
(lines 159-164). -/
def ipfsStore (env : Env) (req : IPFSStoreRequest) (store : Store) :
    Store × List Event × IPFSStoreResponse :=
  match ipfsStoreRun env req store with
  | (s, t, .ok p) =>
    (s, t, { success := true, message := "OK", transactionHash := some p.1, ipfs := p.2 })
  | (s, t, .error e) =>
    (s, t, { success := false, message := e, transactionHash := none, ipfs := none })

/-!
Helper lemmas.
-/

lemma txLoop_allocState (env : Env) (txs : List Tx) :
    ∀ i store, (txLoop env txs i store).1.allocState = store.allocState := by
  induction txs with
  | nil => intro i store; rfl
  | cons t rest ih =>
    intro i store
    simp only [txLoop]
    cases h : env.txCacheSet i with
    | error e => rfl
    | ok u => simpa using ih (i + 1) _

lemma txLoop_bundleGroups (env : Env) (txs : List Tx) :
    ∀ i store, (txLoop env txs i store).1.bundleGroups = store.bundleGroups := by
  induction txs with
  | nil => intro i store; rfl
  | cons t rest ih =>
    intro i store
    simp only [txLoop]
    cases h : env.txCacheSet i with
    | error e => rfl
    | ok u => simpa using ih (i + 1) _

lemma txLoop_events (env : Env) (txs : List Tx) :
    ∀ i store e, e ∈ (txLoop env txs i store).2.1 → e = Event.txCacheSet := by
  induction txs with
  | nil => intro i store e h; simp [txLoop] at h
  | cons t rest ih =>
    intro i store e h
    simp only [txLoop] at h
    cases henv : env.txCacheSet i with
    | error msg => rw [henv] at h; simp at h; exact h
    | ok u =>
      rw [henv] at h
      simp at h
      rcases h with h | h
      · exact h
      · exact ih _ _ _ h

lemma txLoop_ok (env : Env) (txs : List Tx) (h : ∀ j, env.txCacheSet j = .ok ()) :
    ∀ i store, txLoop env txs i store =
      ({ store with txRecords := store.txRecords ++ txs.map (fun t => (t.hash, t.trytes)) },
       txs.map (fun _ => Event.txCacheSet), .ok ()) := by
  induction txs with
  | nil => intro i store; simp [txLoop]
  | cons t rest ih =>
    intro i store
    simp only [txLoop, h i, ih (i + 1)]
    simp

lemma txLoop_error (env : Env) (txs : List Tx) :
    ∀ i store s t msg, txLoop env txs i store = (s, t, .error msg) →
      ∃ j, env.txCacheSet j = .error msg := by
  induction txs with
  | nil => intro i store s t msg h; simp [txLoop] at h
  | cons tx rest ih =>
    intro i store s t msg h
    simp only [txLoop] at h
    cases henv : env.txCacheSet i with
    | error e =>
      rw [henv] at h
      simp at h
      exact ⟨i, by rw [henv, h.2.2]⟩
    | ok u =>
      rw [henv] at h
      simp at h
      rcases h with ⟨h1, h2, h3⟩
      rcases ih (i + 1) _ _ _ _ (by
        have : txLoop env rest (i + 1)
            { store with txRecords := store.txRecords ++ [(tx.hash, tx.trytes)] } =
            ((txLoop env rest (i + 1)
              { store with txRecords := store.txRecords ++ [(tx.hash, tx.trytes)] }).1,
             (txLoop env rest (i + 1)
              { store with txRecords := store.txRecords ++ [(tx.hash, tx.trytes)] }).2.1,
             (txLoop env rest (i + 1)
              { store with txRecords := store.txRecords ++ [(tx.hash, tx.trytes)] }).2.2) := rfl
        rw [this, ← h3]) with ⟨j, hj⟩
      exact ⟨j, hj⟩

lemma heavyAfterChecks_true (l : List Event) : heavyAfterChecks true true l = true := by
  induction l with
  | nil => rfl
  | cons e r ih => cases e <;> simp [heavyAfterChecks, ih]

lemma setBeforeSign_true (l : List Event) : setBeforeSign true l = true := by
  induction l with
  | nil => rfl
  | cons e r ih => cases e <;> simp [setBeforeSign, ih]

lemma ipfsStore_trace (env : Env) (req : IPFSStoreRequest) (store : Store) :
    (ipfsStore env req store).2.1 = (ipfsStoreRun env req store).2.1 := by
  unfold ipfsStore
  rcases h : ipfsStoreRun env req store with ⟨s, t, r⟩
  cases r <;> simp

lemma ipfsStore_store (env : Env) (req : IPFSStoreRequest) (store : Store) :
    (ipfsStore env req store).1 = (ipfsStoreRun env req store).1 := by
  unfold ipfsStore
  rcases h : ipfsStoreRun env req store with ⟨s, t, r⟩
  cases r <;> simp

/-!
Claim theorems.
-/

/-- C7: with the field validation and node probe passing, ingesting a
zero-length decoded buffer fails with the `EmptyFile` message and ingesting
a decoded buffer of length at least `maxSize = 0.5 * 1048576` fails with the
`FileTooLarge` message; in both cases `success = false`, the backing store
is untouched and the trace shows no ledger submission (no `sendTrytes`
event, indeed no call past the local checks). -/
theorem c7_empty_and_too_large (env : Env) (req : IPFSStoreRequest) (store : Store)
    (hval : validate req = Except.ok ()) (hnode : env.nodeAvailable = true) :
    ((env.base64Decode req.data).length = 0 →
      ipfsStore env req store =
        (store, [Event.nodeProbe, Event.sizeCheck, Event.emptyCheck],
         ⟨false, emptyFileMsg, none, none⟩)) ∧
    (maxSize ≤ (env.base64Decode req.data).length →
      ipfsStore env req store =
        (store, [Event.nodeProbe, Event.sizeCheck],
         ⟨false, fileTooLargeMsg, none, none⟩)) := by
  constructor
  · intro h0
    simp [ipfsStore, ipfsStoreRun, hval, hnode, h0, maxSize]
  · intro hbig
    simp [ipfsStore, ipfsStoreRun, hval, hnode, hbig]

/-- An environment decoding every body to the empty buffer. -/
def envEmptyBuffer : Env := { testEnv with base64Decode := fun _ => [] }

/-- An environment decoding every body to a `maxSize`-byte buffer. -/
def envBigBuffer : Env := { testEnv with base64Decode := fun _ => List.replicate maxSize 0 }

theorem c7_empty_and_too_large_witness :
    ipfsStore envEmptyBuffer testReq testStore =
      (testStore, [Event.nodeProbe, Event.sizeCheck, Event.emptyCheck],
       ⟨false, emptyFileMsg, none, none⟩) ∧
    ipfsStore envBigBuffer testReq testStore =
      (testStore, [Event.nodeProbe, Event.sizeCheck],
       ⟨false, fileTooLargeMsg, none, none⟩) :=
  ⟨(c7_empty_and_too_large envEmptyBuffer testReq testStore rfl rfl).1 rfl,
   (c7_empty_and_too_large envBigBuffer testReq testStore rfl rfl).2
     (by simp [envBigBuffer, List.length_replicate])⟩

/-- C1: for every ingestion request that reaches the hash comparison (field
validation, node probe and the two buffer-length checks pass) and whose
recomputed hash of the decoded bytes does not equal the declared hash,
`ipfsStore` returns `success = false` with a message containing the
calculated hash (rendered `"undefined"` when no digest was computed), the
backing store is unchanged, and the trace stops at the local checks — in
particular the allocation state is never read, incremented or persisted and
no ledger submission happens. -/
theorem c1_hash_mismatch_no_side_effect (env : Env) (req : IPFSStoreRequest) (store : Store)
    (hval : validate req = Except.ok ())
    (hnode : env.nodeAvailable = true)
    (hsize : ¬ maxSize ≤ (env.base64Decode req.data).length)
    (hne : (env.base64Decode req.data).length ≠ 0)
    (hhash : hexOf env req.algorithm (env.base64Decode req.data) ≠ some req.hash) :
    (ipfsStore env req store).2.2.success = false ∧
    (∃ pre post, (ipfsStore env req store).2.2.message =
      pre ++ (hexOf env req.algorithm (env.base64Decode req.data)).getD "undefined" ++ post) ∧
    (ipfsStore env req store).1 = store ∧
    (ipfsStore env req store).2.1 = [Event.nodeProbe, Event.sizeCheck, Event.emptyCheck] := by
  have hrun : ipfsStore env req store =
      (store, [Event.nodeProbe, Event.sizeCheck, Event.emptyCheck],
       ⟨false, hashMismatchMsg req.hash (hexOf env req.algorithm (env.base64Decode req.data)),
        none, none⟩) := by
    simp [ipfsStore, ipfsStoreRun, hval, hnode, hsize, hne, hhash]
  rw [hrun]
  exact ⟨rfl,
    ⟨"Error: The hash for the file is incorrect \x27" ++ req.hash ++
      "\x27 was sent but it has been calculated as \x27", "\x27", rfl⟩,
    rfl, rfl⟩

/-- A request whose declared hash matches no digest `testEnv` produces. -/
def badHashReq : IPFSStoreRequest := { testReq with hash := "deadbeef" }

theorem c1_hash_mismatch_no_side_effect_witness :
    (ipfsStore testEnv badHashReq testStore).2.2.success = false ∧
    (∃ pre post, (ipfsStore testEnv badHashReq testStore).2.2.message =
      pre ++ (hexOf testEnv badHashReq.algorithm
        (testEnv.base64Decode badHashReq.data)).getD "undefined" ++ post) ∧
    (ipfsStore testEnv badHashReq testStore).1 = testStore ∧
    (ipfsStore testEnv badHashReq testStore).2.1 =
      [Event.nodeProbe, Event.sizeCheck, Event.emptyCheck] :=
  c1_hash_mismatch_no_side_effect testEnv badHashReq testStore rfl rfl
    (by decide) (by decide) (by decide)

/-- C10: for every request whose `algorithm` is neither `"sha256"` nor
`"sha3"`, no digest is computed (`hex` stays `undefined`), the comparison
with the declared hash therefore fails (a string never equals `undefined`),
and `ipfsStore` returns `success = false` without any IPFS add, allocation
state read or write, or ledger submission; the backing store is unchanged.
This holds for every request with such an algorithm, whether or not the
earlier checks pass. -/
theorem c10_unknown_algorithm_rejected (env : Env) (req : IPFSStoreRequest) (store : Store)
    (ha : req.algorithm ≠ "sha256") (hb : req.algorithm ≠ "sha3") :
    hexOf env req.algorithm (env.base64Decode req.data) = none ∧
    (ipfsStore env req store).2.2.success = false ∧
    (ipfsStore env req store).1 = store ∧
    Event.ipfsAdd ∉ (ipfsStore env req store).2.1 ∧
    Event.stateGet ∉ (ipfsStore env req store).2.1 ∧
    Event.stateSet ∉ (ipfsStore env req store).2.1 ∧
    Event.sendTrytes ∉ (ipfsStore env req store).2.1 := by
  have hhex : hexOf env req.algorithm (env.base64Decode req.data) = none := by
    simp [hexOf, ha, hb]
  refine ⟨hhex, ?_⟩
  cases hv : validate req with
  | error e => simp [ipfsStore, ipfsStoreRun, hv]
  | ok u =>
    by_cases hn : env.nodeAvailable = false
    · simp [ipfsStore, ipfsStoreRun, hv, hn]
    · by_cases hs : maxSize ≤ (env.base64Decode req.data).length
      · simp [ipfsStore, ipfsStoreRun, hv, hn, hs]
      · by_cases hz : (env.base64Decode req.data).length = 0
        · simp [ipfsStore, ipfsStoreRun, hv, hn, hs, hz, maxSize]
        · simp [ipfsStore, ipfsStoreRun, hv, hn, hs, hz, hhex]

/-- A request naming an algorithm the pipeline does not support. -/
def md5Req : IPFSStoreRequest := { testReq with algorithm := "md5" }

theorem c10_unknown_algorithm_rejected_witness :
    hexOf testEnv md5Req.algorithm (testEnv.base64Decode md5Req.data) = none ∧
    (ipfsStore testEnv md5Req testStore).2.2.success = false ∧
    (ipfsStore testEnv md5Req testStore).1 = testStore ∧
    Event.ipfsAdd ∉ (ipfsStore testEnv md5Req testStore).2.1 ∧
    Event.stateGet ∉ (ipfsStore testEnv md5Req testStore).2.1 ∧
    Event.stateSet ∉ (ipfsStore testEnv md5Req testStore).2.1 ∧
    Event.sendTrytes ∉ (ipfsStore testEnv md5Req testStore).2.1 :=
  c10_unknown_algorithm_rejected testEnv md5Req testStore (by decide) (by decide)

/-- Two strings that are equal up to letter case (character-wise lower-case
folding). -/
def sameUpToCase (a b : String) : Prop :=
  a.data.map Char.toLower = b.data.map Char.toLower

instance (a b : String) : Decidable (sameUpToCase a b) :=
  inferInstanceAs (Decidable (a.data.map Char.toLower = b.data.map Char.toLower))

/-- An environment whose sha256 digest of the test buffer is the lower-case
hex string `"ab"`. -/
def lowerHexEnv : Env := { testEnv with sha256Hex := fun _ => "ab" }

/-- A request declaring the same digest in upper case, `"AB"`. -/
def upperHashReq : IPFSStoreRequest := { testReq with hash := "AB" }

/-- C5 counterexample: the comparison at line 62 is the strict string
comparison `hex !== request.hash`, not a case-insensitive one.  With the
recomputed digest `"ab"` and the declared hash `"AB"` — equal up to letter
case and nothing else — `ipfsStore` rejects the submission with the
hash-mismatch message instead of accepting it. -/
theorem c5_counterexample_case_rejected :
    upperHashReq.hash ≠ "ab" ∧
    sameUpToCase upperHashReq.hash "ab" ∧
    hexOf lowerHexEnv upperHashReq.algorithm
      (lowerHexEnv.base64Decode upperHashReq.data) = some "ab" ∧
    (ipfsStore lowerHexEnv upperHashReq testStore).2.2.success = false ∧
    (ipfsStore lowerHexEnv upperHashReq testStore).2.2.message =
      hashMismatchMsg "AB" (some "ab") := by
  refine ⟨by decide, by decide, by decide, ?_, ?_⟩ <;> decide

/-- C5 amended: the hash comparison is an exact, case-sensitive string
equality.  Whenever the recomputed digest differs from the declared hash —
even when the two differ only in letter case — the submission is rejected
with the hash-mismatch message. -/
theorem c5_amended_case_sensitive_compare (env : Env) (req : IPFSStoreRequest) (store : Store)
    (d : String)
    (hval : validate req = Except.ok ())
    (hnode : env.nodeAvailable = true)
    (hsize : ¬ maxSize ≤ (env.base64Decode req.data).length)
    (hne : (env.base64Decode req.data).length ≠ 0)
    (hd : hexOf env req.algorithm (env.base64Decode req.data) = some d)
    (_hcase : sameUpToCase d req.hash)
    (hneq : d ≠ req.hash) :
    (ipfsStore env req store).2.2.success = false ∧
    (ipfsStore env req store).2.2.message = hashMismatchMsg req.hash (some d) := by
  have hx : hexOf env req.algorithm (env.base64Decode req.data) ≠ some req.hash := by
    rw [hd]
    simp [hneq]
  have hrun : ipfsStore env req store =
      (store, [Event.nodeProbe, Event.sizeCheck, Event.emptyCheck],
       ⟨false, hashMismatchMsg req.hash (hexOf env req.algorithm (env.base64Decode req.data)),
        none, none⟩) := by
    simp [ipfsStore, ipfsStoreRun, hval, hnode, hsize, hne, hx]
  rw [hrun, hd]
  exact ⟨rfl, rfl⟩

theorem c5_amended_case_sensitive_compare_witness :
    (ipfsStore lowerHexEnv upperHashReq testStore).2.2.success = false ∧
    (ipfsStore lowerHexEnv upperHashReq testStore).2.2.message =
      hashMismatchMsg upperHashReq.hash (some "ab") :=
  c5_amended_case_sensitive_compare lowerHexEnv upperHashReq testStore "ab"
    rfl rfl (by decide) (by decide) (by decide) (by decide) (by decide)

/-- C6 counterexample: the node-availability probe
(`IotaHelper.isNodeAvailable`, line 33) is a network call made by the
ingestion pipeline before either buffer-length check runs (lines 39 and 46).
On a run reaching the empty-file check, the trace starts with the network
event `nodeProbe` followed by the two check events, so the claim that both
checks precede every network call fails. -/
theorem c6_counterexample_probe_before_checks :
    (ipfsStore envEmptyBuffer testReq testStore).2.1 =
      [Event.nodeProbe, Event.sizeCheck, Event.emptyCheck] ∧
    isNetwork Event.nodeProbe = true ∧
    noCheckAfterNetwork (ipfsStore envEmptyBuffer testReq testStore).2.1 = false := by
  refine ⟨by decide, rfl, by decide⟩

lemma run_heavyAfterChecks (env : Env) (req : IPFSStoreRequest) (store : Store) :
    heavyAfterChecks false false (ipfsStoreRun env req store).2.1 = true := by
  simp only [ipfsStoreRun]
  repeat' split
  all_goals simp [heavyAfterChecks, heavyAfterChecks_true]

/-- C6 amended: the size-limit check and the empty-file check are performed
before every content-store, backing-store and ledger call of the ingestion
pipeline (the IPFS add, the allocation state read and write, the transfer
preparation and submission, and the cache writes); only the
node-availability probe — itself a network call — precedes the two checks. -/
theorem c6_amended_checks_before_heavy_calls (env : Env) (req : IPFSStoreRequest)
    (store : Store) :
    heavyAfterChecks false false (ipfsStore env req store).2.1 = true := by
  rw [ipfsStore_trace]
  exact run_heavyAfterChecks env req store

/-- C4 counterexample: the allocation step is an unconditional
read-increment-write (`stateService.get`, in-memory increment,
`stateService.set` with no compare-and-swap and no retry), so two concurrent
requests can interleave as get-A, get-B, set-A, set-B: both snapshot the
stored index 5 and both allocate index 6 for the same seed `"S"`, refuting
"two concurrent `allocateNext()` calls never return the same index for the
same seed … enforced by an atomic conditional write". -/
theorem c4_counterexample_duplicate_index :
    (allocSched testEnv [true, false, true, false]
      ⟨some ⟨"S", "default", 5⟩, Phase.start, Phase.start⟩).threadA =
        Phase.done ⟨"S", "default", 6⟩ ∧
    (allocSched testEnv [true, false, true, false]
      ⟨some ⟨"S", "default", 5⟩, Phase.start, Phase.start⟩).threadB =
        Phase.done ⟨"S", "default", 6⟩ := by
  exact ⟨rfl, rfl⟩

/-- C4 amended: the allocation step of lines 101-112 is an unconditional
read-increment-write, not a compare-and-swap.  When the two backing-store
operations of each request do not interleave (the get and the set of
request A both run before those of request B), the two requests do obtain
distinct consecutive
indices for the stored seed; the counterexample shows interleaved schedules
can hand out the same index twice. -/
theorem c4_amended_sequential_distinct (env : Env) (s0 : StoredState) :
    (allocSched env [true, true, false, false]
      ⟨some s0, Phase.start, Phase.start⟩).threadA =
        Phase.done ⟨s0.seed, s0.id, s0.addressIndex + 1⟩ ∧
    (allocSched env [true, true, false, false]
      ⟨some s0, Phase.start, Phase.start⟩).threadB =
        Phase.done ⟨s0.seed, s0.id, s0.addressIndex + 2⟩ ∧
    s0.addressIndex + 1 ≠ s0.addressIndex + 2 := by
  refine ⟨?_, ?_, by omega⟩ <;> simp [allocSched, allocStep, allocNext]

lemma validate_error_nonempty (req : IPFSStoreRequest) (e : String)
    (h : validate req = Except.error e) : e ≠ "" := by
  unfold validate at h
  split at h
  · injection h with h2; subst h2; decide
  · split at h
    · injection h with h2; subst h2; decide
    · split at h
      · injection h with h2; subst h2; decide
      · split at h
        · injection h with h2; subst h2; decide
        · split at h
          · injection h with h2; subst h2; decide
          · split at h
            · injection h with h2; subst h2; decide
            · exact Except.noConfusion h

lemma hashMismatchMsg_ne (d : String) (h : Option String) : hashMismatchMsg d h ≠ "" := by
  intro hc
  have hl := congrArg String.length hc
  simp [hashMismatchMsg, String.length_append] at hl
  exact (by decide : ¬ ("\x27".length = 0)) hl.2

lemma txLoop_error_nonempty (env : Env)
    (htxw : ∀ j e, env.txCacheSet j = Except.error e → e ≠ "")
    (txs : List Tx) (i : Nat) (store : Store) (e : String)
    (h : (txLoop env txs i store).2.2 = Except.error e) : e ≠ "" := by
  have h2 : txLoop env txs i store =
      ((txLoop env txs i store).1, (txLoop env txs i store).2.1, Except.error e) := by
    rw [← h]
  rcases txLoop_error env txs i store _ _ e h2 with ⟨j, hj⟩
  exact htxw j e hj

/-- A well-formed environment: every rejected external call carries a
non-empty `toString()` rendering, as every JavaScript `Error` does. -/
def EnvWf (env : Env) : Prop :=
  (∀ e, env.ipfsAdd = Except.error e → e ≠ "") ∧
  (∀ e, env.stateGet = Except.error e → e ≠ "") ∧
  (∀ e, env.stateSet = Except.error e → e ≠ "") ∧
  (∀ e, env.prepareTransfers = Except.error e → e ≠ "") ∧
  (∀ e, env.sendTrytes = Except.error e → e ≠ "") ∧
  (∀ e, env.bundleCacheSet = Except.error e → e ≠ "") ∧
  (∀ j e, env.txCacheSet j = Except.error e → e ≠ "")


lemma txLoop_tuple_error_nonempty (env : Env)
    (htxw : ∀ j e, env.txCacheSet j = Except.error e → e ≠ "")
    (txs : List Tx) (i : Nat) (store : Store) (s : Store) (t : List Event) (e : String)
    (h : txLoop env txs i store = (s, t, Except.error e)) : e ≠ "" := by
  rcases txLoop_error env txs i store s t e h with ⟨j, hj⟩
  exact htxw j e hj

lemma run_error_nonempty (env : Env) (req : IPFSStoreRequest) (store : Store)
    (hia : ∀ e, env.ipfsAdd = Except.error e → e ≠ "")
    (hig : ∀ e, env.stateGet = Except.error e → e ≠ "")
    (his : ∀ e, env.stateSet = Except.error e → e ≠ "")
    (hpt : ∀ e, env.prepareTransfers = Except.error e → e ≠ "")
    (hst : ∀ e, env.sendTrytes = Except.error e → e ≠ "")
    (hbc : ∀ e, env.bundleCacheSet = Except.error e → e ≠ "")
    (htxw : ∀ j e, env.txCacheSet j = Except.error e → e ≠ "")
    (e : String) (h : (ipfsStoreRun env req store).2.2 = Except.error e) : e ≠ "" := by
  simp only [ipfsStoreRun] at h
  repeat' split at h
  all_goals simp at h
  all_goals (try subst h)
  any_goals decide
  all_goals solve_by_elim [validate_error_nonempty, hashMismatchMsg_ne,
    txLoop_tuple_error_nonempty env htxw]

/-- C8: for every request, environment and backing store (with every
external rejection carrying a non-empty error rendering, as the
`toString()` of every JavaScript `Error` is), `ipfsStore` returns a
structured
response: either `success = true`, or `success = false` together with a
non-empty human-readable message.  The embedding is a total function, so no
exception crosses the pipeline boundary. -/
theorem c8_structured_result_no_exception (env : Env) (req : IPFSStoreRequest) (store : Store)
    (hwf : EnvWf env) :
    (ipfsStore env req store).2.2.success = true ∨
    ((ipfsStore env req store).2.2.success = false ∧
      (ipfsStore env req store).2.2.message ≠ "") := by
  obtain ⟨hia, hig, his, hpt, hst, hbc, htxw⟩ := hwf
  unfold ipfsStore
  rcases hr : ipfsStoreRun env req store with ⟨s, t, res⟩
  cases res with
  | ok p => left; simp
  | error e =>
    right
    refine ⟨by simp, ?_⟩
    exact run_error_nonempty env req store hia hig his hpt hst hbc htxw e (by rw [hr])

theorem c8_structured_result_no_exception_witness :
    (ipfsStore envEmptyBuffer testReq testStore).2.2.success = true ∨
    ((ipfsStore envEmptyBuffer testReq testStore).2.2.success = false ∧
      (ipfsStore envEmptyBuffer testReq testStore).2.2.message ≠ "") :=
  c8_structured_result_no_exception envEmptyBuffer testReq testStore
    ⟨fun e h => by simp [envEmptyBuffer, testEnv] at h,
     fun e h => by simp [envEmptyBuffer, testEnv] at h,
     fun e h => by simp [envEmptyBuffer, testEnv] at h,
     fun e h => by simp [envEmptyBuffer, testEnv] at h,
     fun e h => by simp [envEmptyBuffer, testEnv] at h,
     fun e h => by simp [envEmptyBuffer, testEnv] at h,
     fun j e h => by simp [envEmptyBuffer, testEnv] at h⟩

/-- C9: when every step up to and including the ledger submission and the
cache writes succeeds (and the submission returns at least one transaction),
`ipfsStore` returns `success = true` carrying the hash of the first returned
transaction (the canonical external reference) and the IPFS content id, the
bundle cache gains the record group — the group id `bundles[0].bundle` with
the ordered member transaction hashes — and the transaction cache gains one
entry per chained transaction, in order. -/
theorem c9_success_caches_and_first_record (env : Env) (req : IPFSStoreRequest) (store : Store)
    (hval : validate req = Except.ok ())
    (hnode : env.nodeAvailable = true)
    (hsize : ¬ maxSize ≤ (env.base64Decode req.data).length)
    (hne : (env.base64Decode req.data).length ≠ 0)
    (hhash : hexOf env req.algorithm (env.base64Decode req.data) = some req.hash)
    (hparts : env.ipfsPartsOk = true)
    (paths : List String) (hadd : env.ipfsAdd = Except.ok paths)
    (hget : env.stateGet = Except.ok ())
    (hset : env.stateSet = Except.ok ())
    (s : String) (hpt : env.prepareTransfers = Except.ok s)
    (b0 : Tx) (rest : List Tx) (hsend : env.sendTrytes = Except.ok (b0 :: rest))
    (hbc : env.bundleCacheSet = Except.ok ())
    (htx : ∀ j, env.txCacheSet j = Except.ok ()) :
    (ipfsStore env req store).2.2 =
      { success := true, message := "OK", transactionHash := some b0.hash,
        ipfs := paths.getLast? } ∧
    (ipfsStore env req store).1.bundleGroups =
      (b0.bundle, (b0 :: rest).map (fun t => t.hash)) :: store.bundleGroups ∧
    (ipfsStore env req store).1.txRecords =
      store.txRecords ++ (b0 :: rest).map (fun t => (t.hash, t.trytes)) := by
  simp [ipfsStore, ipfsStoreRun, hval, hnode, hsize, hne, hhash, hparts, hadd, hget, hset,
    hpt, hsend, hbc, txLoop_ok env _ htx]

theorem c9_success_caches_and_first_record_witness :
    (ipfsStore testEnv testReq testStore).2.2 =
      { success := true, message := "OK", transactionHash := some "TX0",
        ipfs := some "QmTestHash" } ∧
    (ipfsStore testEnv testReq testStore).1.bundleGroups =
      [("BUNDLE0", ["TX0", "TX1"])] ∧
    (ipfsStore testEnv testReq testStore).1.txRecords =
      [("TX0", "RAW0"), ("TX1", "RAW1")] :=
  c9_success_caches_and_first_record testEnv testReq testStore rfl rfl
    (by decide) (by decide) (by decide) rfl ["QmTestHash"] rfl rfl rfl "TRYTES" rfl
    ⟨"TX0", "BUNDLE0", "RAW0"⟩ [⟨"TX1", "BUNDLE0", "RAW1"⟩] rfl rfl (fun j => rfl)


lemma txLoop_tuple_fst (env : Env) (txs : List Tx) (i : Nat) (store : Store)
    (s : Store) (t : List Event) (r : Except String Unit)
    (h : txLoop env txs i store = (s, t, r)) : s.allocState = store.allocState := by
  have h1 : s.allocState = (txLoop env txs i store).1.allocState := by rw [h]
  rw [h1, txLoop_allocState]

lemma run_setBeforeSign (env : Env) (req : IPFSStoreRequest) (store : Store) :
    setBeforeSign false (ipfsStoreRun env req store).2.1 = true := by
  simp only [ipfsStoreRun]
  repeat' split
  all_goals simp [setBeforeSign, setBeforeSign_true]

lemma run_allocState_set (env : Env) (req : IPFSStoreRequest) (store : Store)
    (hval : validate req = Except.ok ())
    (hnode : env.nodeAvailable = true)
    (hsize : ¬ maxSize ≤ (env.base64Decode req.data).length)
    (hne : (env.base64Decode req.data).length ≠ 0)
    (hhash : hexOf env req.algorithm (env.base64Decode req.data) = some req.hash)
    (hparts : env.ipfsPartsOk = true)
    (paths : List String) (hadd : env.ipfsAdd = Except.ok paths)
    (hget : env.stateGet = Except.ok ())
    (hset : env.stateSet = Except.ok ()) :
    (ipfsStoreRun env req store).1.allocState = some (allocNext env store.allocState) := by
  simp only [ipfsStoreRun]
  simp [hval, hnode, hsize, hne, hhash, hparts, hadd, hget, hset]
  repeat' split
  all_goals try simp
  all_goals (rename_i heq; rw [txLoop_tuple_fst env _ _ _ _ _ _ heq]; try simp)

/-- C2: when the pipeline reaches the allocation step (all earlier steps
succeed), allocation behaves as specified: if the backing store holds no
allocation state, a state with the freshly generated seed and index 0 is
persisted; otherwise the stored index is incremented by exactly one and
persisted.  When the `stateService.set` succeeds the persisted state is what
the run leaves in the backing store, and in the trace every
`prepareTransfers`/`sendTrytes` event comes after the `stateSet` write —
persistence completes before the derived address is used to sign.  When the
`set` fails, the run fails, the backing store is unchanged, and no transfer
is prepared or submitted. -/
theorem c2_allocate_persist_before_sign (env : Env) (req : IPFSStoreRequest) (store : Store)
    (hval : validate req = Except.ok ())
    (hnode : env.nodeAvailable = true)
    (hsize : ¬ maxSize ≤ (env.base64Decode req.data).length)
    (hne : (env.base64Decode req.data).length ≠ 0)
    (hhash : hexOf env req.algorithm (env.base64Decode req.data) = some req.hash)
    (hparts : env.ipfsPartsOk = true)
    (paths : List String) (hadd : env.ipfsAdd = Except.ok paths)
    (hget : env.stateGet = Except.ok ()) :
    (env.stateSet = Except.ok () →
      (ipfsStore env req store).1.allocState =
        some (match store.allocState with
              | none => ⟨env.generateHash, "default", 0⟩
              | some s => ⟨s.seed, s.id, s.addressIndex + 1⟩) ∧
      setBeforeSign false (ipfsStore env req store).2.1 = true) ∧
    (∀ e, env.stateSet = Except.error e →
      (ipfsStore env req store).2.2.success = false ∧
      (ipfsStore env req store).1 = store ∧
      Event.prepareTransfers ∉ (ipfsStore env req store).2.1 ∧
      Event.sendTrytes ∉ (ipfsStore env req store).2.1) := by
  constructor
  · intro hset
    constructor
    · rw [ipfsStore_store,
        run_allocState_set env req store hval hnode hsize hne hhash hparts paths hadd hget hset]
      cases store.allocState <;> simp [allocNext]
    · rw [ipfsStore_trace]
      exact run_setBeforeSign env req store
  · intro e hset
    simp [ipfsStore, ipfsStoreRun, hval, hnode, hsize, hne, hhash, hparts, hadd, hget, hset]

theorem c2_allocate_persist_before_sign_witness :
    (ipfsStore testEnv testReq testStore).1.allocState =
      some ⟨"STOREDSEED", "default", 6⟩ ∧
    setBeforeSign false (ipfsStore testEnv testReq testStore).2.1 = true :=
  (c2_allocate_persist_before_sign testEnv testReq testStore rfl rfl
    (by decide) (by decide) (by decide) rfl ["QmTestHash"] rfl rfl).1 rfl

/-- C3 counterexample: the frozen claim also asserts that no `(seed, index)`
pair is ever handed out twice, but the allocation step is an unconditional
read-increment-write, so two concurrently interleaved requests can both
snapshot the stored index 9 and both be handed the pair `("T", 10)` — the
same pair is issued twice.  (Schedule: get-B, get-A, set-B, set-A over a
store holding index 9 for seed `"T"`.) -/
theorem c3_counterexample_pair_reissued :
    (allocSched testEnv [false, true, false, true]
      ⟨some ⟨"T", "default", 9⟩, Phase.start, Phase.start⟩).threadA =
        Phase.done ⟨"T", "default", 10⟩ ∧
    (allocSched testEnv [false, true, false, true]
      ⟨some ⟨"T", "default", 9⟩, Phase.start, Phase.start⟩).threadB =
        Phase.done ⟨"T", "default", 10⟩ :=
  ⟨rfl, rfl⟩

/-- C3 amended: once the allocation step has persisted the incremented
index, any later failure (transfer preparation, ledger submission, empty
submission result, bundle-cache or transaction-cache write) leaves the run
with `success = false` while the backing store keeps the incremented index —
there is no decrement and no rollback, so the persisted index never
decreases and the consumed index is not returned to the pool.  (The frozen
claim additionally asserted that no `(seed, index)` pair is ever handed out
twice; the counterexample above refutes that for concurrently interleaved
requests, so the at-most-once property holds only for non-interleaved
allocations, as settled under C4.) -/
theorem c3_no_rollback_after_allocation (env : Env) (req : IPFSStoreRequest) (store : Store)
    (st : StoredState)
    (hval : validate req = Except.ok ())
    (hnode : env.nodeAvailable = true)
    (hsize : ¬ maxSize ≤ (env.base64Decode req.data).length)
    (hne : (env.base64Decode req.data).length ≠ 0)
    (hhash : hexOf env req.algorithm (env.base64Decode req.data) = some req.hash)
    (hparts : env.ipfsPartsOk = true)
    (paths : List String) (hadd : env.ipfsAdd = Except.ok paths)
    (hget : env.stateGet = Except.ok ())
    (hset : env.stateSet = Except.ok ())
    (hst : store.allocState = some st)
    (hfail : (ipfsStore env req store).2.2.success = false) :
    (ipfsStore env req store).2.2.success = false ∧
    (ipfsStore env req store).1.allocState = some ⟨st.seed, st.id, st.addressIndex + 1⟩ ∧
    (∀ s, (ipfsStore env req store).1.allocState = some s →
      st.addressIndex ≤ s.addressIndex) := by
  have hall : (ipfsStore env req store).1.allocState =
      some ⟨st.seed, st.id, st.addressIndex + 1⟩ := by
    rw [ipfsStore_store,
      run_allocState_set env req store hval hnode hsize hne hhash hparts paths hadd hget hset,
      hst]
    simp [allocNext]
  refine ⟨hfail, hall, ?_⟩
  intro s hs
  rw [hall] at hs
  injection hs with h2
  rw [← h2]
  exact Nat.le_succ _

/-- An environment whose ledger submission is rejected. -/
def envSendFail : Env := { testEnv with sendTrytes := .error "Error: sendTrytes failed" }

theorem c3_no_rollback_after_allocation_witness :
    (ipfsStore envSendFail testReq testStore).2.2.success = false ∧
    (ipfsStore envSendFail testReq testStore).1.allocState =
      some ⟨"STOREDSEED", "default", 6⟩ ∧
    (∀ s, (ipfsStore envSendFail testReq testStore).1.allocState = some s →
      (5 : Nat) ≤ s.addressIndex) :=
  c3_no_rollback_after_allocation envSendFail testReq testStore
    ⟨"STOREDSEED", "default", 5⟩ rfl rfl (by decide) (by decide) (by decide) rfl
    ["QmTestHash"] rfl rfl rfl rfl (by decide)
